import Mathlib

/-!
Verification of the patient-flow coordination core of the `medi_hack`
repository, as implemented in `web/src/lib/supabase.ts` (data-access layer),
`web/src/pages/DoctorPage.tsx` (doctor actions) and
`web/src/pages/PatientPage.tsx` (patient dashboard, notification dispatch),
against the database schema in `supabase/schema.sql`.

The tables `appointments`, `queue_entries` and `notifications` are embedded
as lists of records inside a `DB` state; each exported data-access function
becomes a pure state transformer.  Timestamps are modelled as naturals,
row ids as naturals supplied by the caller (the database generates them).
-/

namespace MediHack

/-- Queue-entry status: `check (status in ('waiting','called','in_room','done'))`. -/
inductive QStatus where
  | waiting
  | called
  | in_room
  | done
deriving DecidableEq, Repr

/-- Appointment status:
`check (status in ('scheduled','waiting','in_consult','done','cancelled'))`. -/
inductive AStatus where
  | scheduled
  | waiting
  | in_consult
  | done
  | cancelled
deriving DecidableEq, Repr

/-- Notification type: `check (type in ('near_turn','called','info'))`. -/
inductive NotifType where
  | near_turn
  | called
  | info
deriving DecidableEq, Repr

/-- A row of `appointments` (fields of `Appointment` in `types.ts`). -/
structure Appointment where
  id : Nat
  patient_id : Nat
  doctor_id : Nat
  spid : String
  visit_reason : String
  complaint : Option String
  status : AStatus
  created_at : Nat
deriving DecidableEq, Repr

/-- A row of `queue_entries` (fields of `QueueEntry` in `types.ts`). -/
structure QueueEntry where
  id : Nat
  appointment_id : Nat
  doctor_id : Nat
  patient_id : Nat
  spid : String
  queue_number : Nat
  priority : Nat
  status : QStatus
  created_at : Nat
  called_at : Option Nat
  done_at : Option Nat
deriving DecidableEq, Repr

/-- A row of `notifications` (fields of `NotificationItem` in `types.ts`). -/
structure NotificationItem where
  id : Nat
  patient_id : Nat
  queue_entry_id : Nat
  type : NotifType
  message : String
  delivered : Bool
  created_at : Nat
deriving DecidableEq, Repr

/-- The persistent state: the three mutable tables the core touches. -/
structure DB where
  appointments : List Appointment
  queue_entries : List QueueEntry
  notifications : List NotificationItem
deriving DecidableEq, Repr

/-- Statuses `['waiting', 'called', 'in_room']` used by the
`.in('status', ...)` filters of `getPatientActiveQueue` / `getDoctorQueue`. -/
def activeStatus : QStatus → Bool
  | .waiting => true
  | .called => true
  | .in_room => true
  | .done => false

/-- Payload of `createAppointmentAndQueue` in `supabase.ts`. -/
structure EnqueuePayload where
  patient_id : Nat
  doctor_id : Nat
  spid : String
  visit_reason : String
  complaint : Option String
deriving DecidableEq, Repr

/-- The rows matched by the max-queue-number query of
`createAppointmentAndQueue`: `.eq('doctor_id', payload.doctor_id)`
`.gte('created_at', startOfDay.toISOString())`. -/
def sameDayDoctorEntries (db : DB) (doctorId startOfDay : Nat) : List QueueEntry :=
  db.queue_entries.filter fun e =>
    decide (e.doctor_id = doctorId) && decide (startOfDay ≤ e.created_at)

/-- `maxQueue?.queue_number ?? 0`: the query orders by `queue_number`
descending with `limit(1)`, i.e. it yields the maximum `queue_number`
among the same-day entries of the doctor, or the list is empty and the
`?? 0` default applies. -/
def maxQueueNumber (db : DB) (doctorId startOfDay : Nat) : Nat :=
  ((sameDayDoctorEntries db doctorId startOfDay).map (·.queue_number)).foldr Nat.max 0

/-- `createAppointmentAndQueue` (`supabase.ts` lines 158–213): inserts the
appointment with status `'waiting'`, reads the max queue number for the
doctor since start of day, and inserts the queue entry with
`queue_number = (max ?? 0) + 1`, `status: 'waiting'`, `priority: 0`.
Fresh row ids and the current/clock values are passed in. -/
def createAppointmentAndQueue (db : DB) (payload : EnqueuePayload)
    (now startOfDay apptId entryId : Nat) : DB × Appointment × QueueEntry :=
  let appointment : Appointment :=
    { id := apptId
      patient_id := payload.patient_id
      doctor_id := payload.doctor_id
      spid := payload.spid
      visit_reason := payload.visit_reason
      complaint := payload.complaint
      status := .waiting
      created_at := now }
  let queueNumber := maxQueueNumber db payload.doctor_id startOfDay + 1
  let entry : QueueEntry :=
    { id := entryId
      appointment_id := apptId
      doctor_id := payload.doctor_id
      patient_id := payload.patient_id
      spid := payload.spid
      queue_number := queueNumber
      priority := 0
      status := .waiting
      created_at := now
      called_at := none
      done_at := none }
  ({ db with
      appointments := db.appointments ++ [appointment]
      queue_entries := db.queue_entries ++ [entry] },
   appointment, entry)

/-- The update payload of `updateQueueStatus`: `{ status }`, plus
`called_at` when the new status is `'called'` and `done_at` when it is
`'done'`. -/
def applyQueuePayload (status : QStatus) (now : Nat) (e : QueueEntry) : QueueEntry :=
  { e with
      status := status
      called_at := if status = .called then some now else e.called_at
      done_at := if status = .done then some now else e.done_at }

/-- `updateQueueStatus` (`supabase.ts` lines 292–299): an unconditional
`update(payload).eq('id', queueId)` — every row whose id matches receives
the payload, whatever its current status; there is no status guard and no
conflict signalling. -/
def updateQueueStatus (db : DB) (queueId : Nat) (status : QStatus) (now : Nat) : DB :=
  { db with
      queue_entries := db.queue_entries.map fun e =>
        if e.id = queueId then applyQueuePayload status now e else e }

/-- `updateAppointmentStatus` (`supabase.ts` lines 301–304):
`update({ status }).eq('id', appointmentId)`, unconditional. -/
def updateAppointmentStatus (db : DB) (appointmentId : Nat) (status : AStatus) : DB :=
  { db with
      appointments := db.appointments.map fun a =>
        if a.id = appointmentId then { a with status := status } else a }

/-- Payload of `createNotification` in `supabase.ts`. -/
structure NotifPayload where
  patient_id : Nat
  queue_entry_id : Nat
  type : NotifType
  message : String
deriving DecidableEq, Repr

/-- `createNotification` (`supabase.ts` lines 253–261): inserts the payload
with `delivered: false`. -/
def createNotification (db : DB) (payload : NotifPayload) (notifId now : Nat) : DB :=
  { db with
      notifications := db.notifications ++
        [{ id := notifId
           patient_id := payload.patient_id
           queue_entry_id := payload.queue_entry_id
           type := payload.type
           message := payload.message
           delivered := false
           created_at := now }] }

/-- `markNotificationDelivered` (`supabase.ts` lines 275–278):
`update({ delivered: true }).eq('id', id)`. -/
def markNotificationDelivered (db : DB) (notifId : Nat) : DB :=
  { db with
      notifications := db.notifications.map fun n =>
        if n.id = notifId then { n with delivered := true } else n }

/-- Ordering used by `.order('queue_number', { ascending: true })`. -/
def byQueueNumber (a b : QueueEntry) : Prop :=
  a.queue_number ≤ b.queue_number

instance : DecidableRel byQueueNumber := fun a b =>
  inferInstanceAs (Decidable (a.queue_number ≤ b.queue_number))

instance : IsTotal QueueEntry byQueueNumber :=
  ⟨fun a b => Nat.le_total a.queue_number b.queue_number⟩

instance : IsTrans QueueEntry byQueueNumber :=
  ⟨fun _ _ _ hab hbc => Nat.le_trans hab hbc⟩

/-- `getDoctorQueue` (`supabase.ts` lines 280–290): the doctor's rows with
status in `['waiting','called','in_room']`, ordered by `queue_number`
ascending. -/
def getDoctorQueue (db : DB) (doctorId : Nat) : List QueueEntry :=
  (db.queue_entries.filter fun e =>
      decide (e.doctor_id = doctorId) && activeStatus e.status).insertionSort byQueueNumber

/-- `nextWaiting` (`DoctorPage.tsx` line 56):
`queue.find((q) => q.status === 'waiting')` over `getDoctorQueue`'s result. -/
def nextWaiting (db : DB) (doctorId : Nat) : Option QueueEntry :=
  (getDoctorQueue db doctorId).find? fun e => decide (e.status = .waiting)

/-- `callNext` (`DoctorPage.tsx` lines 58–70): no-op when `nextWaiting` is
absent; otherwise sets the queue entry to `'called'`, the appointment to
`'in_consult'`, and inserts a `'called'` notification. -/
def callNext (db : DB) (doctorId now notifId : Nat) : DB :=
  match nextWaiting db doctorId with
  | none => db
  | some q =>
      let db1 := updateQueueStatus db q.id .called now
      let db2 := updateAppointmentStatus db1 q.appointment_id .in_consult
      createNotification db2
        { patient_id := q.patient_id
          queue_entry_id := q.id
          type := .called
          message := "Queue is called. Please proceed to room now." }
        notifId now

/-- `markInRoom` (`DoctorPage.tsx` lines 72–75):
`updateQueueStatus(entry.id, 'in_room')`, nothing else. -/
def markInRoom (db : DB) (entry : QueueEntry) (now : Nat) : DB :=
  updateQueueStatus db entry.id .in_room now

/-- `markDone` (`DoctorPage.tsx` lines 77–81): sets the queue entry to
`'done'` and the appointment to `'done'`. -/
def markDone (db : DB) (entry : QueueEntry) (now : Nat) : DB :=
  updateAppointmentStatus (updateQueueStatus db entry.id .done now) entry.appointment_id .done

/-- The rows matched by the filters shared by `getPeopleAhead` and
`countPeopleAhead`: same doctor, status `'waiting'`, smaller `queue_number`. -/
def aheadEntries (db : DB) (queueEntry : QueueEntry) : List QueueEntry :=
  db.queue_entries.filter fun e =>
    decide (e.doctor_id = queueEntry.doctor_id) &&
      decide (e.status = .waiting) && decide (e.queue_number < queueEntry.queue_number)

/-- `countPeopleAhead` (`supabase.ts` lines 241–251): returns
`count ?? 0`, the exact count of the matched rows. -/
def countPeopleAhead (db : DB) (queueEntry : QueueEntry) : Nat :=
  (aheadEntries db queueEntry).length

/-- `getPeopleAhead` (`supabase.ts` lines 229–239): runs the same query but
its result expression is `data ? 0 : 0` — both branches yield `0`, the
query outcome is discarded. -/
def getPeopleAhead (db : DB) (queueEntry : QueueEntry) : Nat :=
  let data := aheadEntries db queueEntry
  if data.isEmpty then 0 else 0

/-- Ordering used by `.order('created_at', { ascending: false })`. -/
def byCreatedDesc (a b : QueueEntry) : Prop :=
  b.created_at ≤ a.created_at

instance : DecidableRel byCreatedDesc := fun a b =>
  inferInstanceAs (Decidable (b.created_at ≤ a.created_at))

/-- `getPatientActiveQueue` (`supabase.ts` lines 215–227): the patient's
rows with status in `['waiting','called','in_room']`, ordered by
`created_at` descending, `limit(1)`. -/
def getPatientActiveQueue (db : DB) (patientId : Nat) : Option QueueEntry :=
  ((db.queue_entries.filter fun e =>
      decide (e.patient_id = patientId) && activeStatus e.status).insertionSort
    byCreatedDesc).head?

/-- The notification-dispatch step of `fetchActiveQueue`
(`PatientPage.tsx`): after fetching the active queue entry, the people
ahead and the prediction, it runs
`if (ahead <= 3 || predicted.predicted_minutes <= 10) createNotification(... 'near_turn' ...)`
with no check for an existing notification.  The predicted minutes come
from the external AI service and are passed in. -/
def dispatchNearTurn (db : DB) (patientId predictedMinutes notifId now : Nat) : DB :=
  match getPatientActiveQueue db patientId with
  | none => db
  | some q =>
      let ahead := countPeopleAhead db q
      if ahead ≤ 3 ∨ predictedMinutes ≤ 10 then
        createNotification db
          { patient_id := patientId
            queue_entry_id := q.id
            type := .near_turn
            message := "You are near your turn at " ++ q.spid ++ ". Please stay ready." }
          notifId now
      else db

/-- Modelled from the spec: the AI service implementing `POST /predict-wait`
(directory `ai/` of the repository) is not among the sources; only its
FastAPI README and the TypeScript client `predictWait` (`ai.ts` lines
404–421) are.  Per §4.3 of the specification the point estimate is
`patients_ahead × average_service_minutes`, and for `patients_ahead = 0`
the service still returns a positive floor representing in-progress
consultation time instead of zero. -/
def predictWaitModel (avgServiceMinutes patientsAhead floorMinutes : Nat) : Nat :=
  Nat.max (patientsAhead * avgServiceMinutes) floorMinutes

/-! ### C5: `countPeopleAhead` counts exactly the same-doctor waiting entries
with a smaller queue number. -/

/-- C5.  `countPeopleAhead` returns the length of the list of matched rows,
and a row is matched exactly when it belongs to the same doctor, is in
status `waiting`, and carries a smaller `queue_number`: an entry whose
status is not `waiting`, or that belongs to a different doctor, is never
counted. -/
theorem countPeopleAhead_correct (db : DB) (q : QueueEntry) :
    countPeopleAhead db q = (aheadEntries db q).length ∧
      ∀ e, e ∈ aheadEntries db q ↔
        e ∈ db.queue_entries ∧ e.doctor_id = q.doctor_id ∧
          e.status = QStatus.waiting ∧ e.queue_number < q.queue_number := by
  refine ⟨rfl, fun e => ?_⟩
  simp [aheadEntries, List.mem_filter, and_assoc]

/-- Witness for C5 at a concrete state: `q` has doctor 1 and queue number 5;
entry 1 (doctor 1, waiting, number 1) is counted, entry 2 (doctor 2,
waiting, number 1) and entry 3 (doctor 1, done, number 1) are not. -/
theorem countPeopleAhead_correct_witness :
    (⟨3, 30, 1, 9, "MED", 1, 0, QStatus.done, 0, none, none⟩ : QueueEntry) ∉
        aheadEntries
          ⟨[], [⟨1, 10, 1, 7, "MED", 1, 0, QStatus.waiting, 0, none, none⟩,
                ⟨2, 20, 2, 8, "MED", 1, 0, QStatus.waiting, 0, none, none⟩,
                ⟨3, 30, 1, 9, "MED", 1, 0, QStatus.done, 0, none, none⟩], []⟩
          ⟨5, 50, 1, 11, "MED", 5, 0, QStatus.waiting, 0, none, none⟩ ∧
      (⟨2, 20, 2, 8, "MED", 1, 0, QStatus.waiting, 0, none, none⟩ : QueueEntry) ∉
        aheadEntries
          ⟨[], [⟨1, 10, 1, 7, "MED", 1, 0, QStatus.waiting, 0, none, none⟩,
                ⟨2, 20, 2, 8, "MED", 1, 0, QStatus.waiting, 0, none, none⟩,
                ⟨3, 30, 1, 9, "MED", 1, 0, QStatus.done, 0, none, none⟩], []⟩
          ⟨5, 50, 1, 11, "MED", 5, 0, QStatus.waiting, 0, none, none⟩ := by
  constructor
  · intro hmem
    have h := (countPeopleAhead_correct
      ⟨[], [⟨1, 10, 1, 7, "MED", 1, 0, QStatus.waiting, 0, none, none⟩,
            ⟨2, 20, 2, 8, "MED", 1, 0, QStatus.waiting, 0, none, none⟩,
            ⟨3, 30, 1, 9, "MED", 1, 0, QStatus.done, 0, none, none⟩], []⟩
      ⟨5, 50, 1, 11, "MED", 5, 0, QStatus.waiting, 0, none, none⟩).2
      ⟨3, 30, 1, 9, "MED", 1, 0, QStatus.done, 0, none, none⟩
    have := (h.mp hmem).2.2.1
    simp at this
  · intro hmem
    have h := (countPeopleAhead_correct
      ⟨[], [⟨1, 10, 1, 7, "MED", 1, 0, QStatus.waiting, 0, none, none⟩,
            ⟨2, 20, 2, 8, "MED", 1, 0, QStatus.waiting, 0, none, none⟩,
            ⟨3, 30, 1, 9, "MED", 1, 0, QStatus.done, 0, none, none⟩], []⟩
      ⟨5, 50, 1, 11, "MED", 5, 0, QStatus.waiting, 0, none, none⟩).2
      ⟨2, 20, 2, 8, "MED", 1, 0, QStatus.waiting, 0, none, none⟩
    have := (h.mp hmem).2.1
    simp at this

/-! ### C10: `getPeopleAhead` discards the query outcome and returns 0. -/

/-- C10.  `getPeopleAhead` returns `0` on every state and every entry —
its result expression `data ? 0 : 0` yields `0` on both branches — so it
disagrees with `countPeopleAhead` whenever the latter is nonzero. -/
theorem getPeopleAhead_always_zero (db : DB) (q : QueueEntry) :
    getPeopleAhead db q = 0 ∧
      (0 < countPeopleAhead db q → getPeopleAhead db q ≠ countPeopleAhead db q) := by
  have hz : getPeopleAhead db q = 0 := by
    simp [getPeopleAhead]
  exact ⟨hz, fun hpos => by omega⟩

/-- Witness for C10: a state with one waiting entry ahead, where
`countPeopleAhead` returns 1 but `getPeopleAhead` returns 0. -/
theorem getPeopleAhead_always_zero_witness :
    getPeopleAhead
        ⟨[], [⟨1, 10, 1, 7, "MED", 1, 0, QStatus.waiting, 0, none, none⟩], []⟩
        ⟨2, 20, 1, 8, "MED", 2, 0, QStatus.waiting, 0, none, none⟩ = 0 ∧
      getPeopleAhead
          ⟨[], [⟨1, 10, 1, 7, "MED", 1, 0, QStatus.waiting, 0, none, none⟩], []⟩
          ⟨2, 20, 1, 8, "MED", 2, 0, QStatus.waiting, 0, none, none⟩ ≠
        countPeopleAhead
          ⟨[], [⟨1, 10, 1, 7, "MED", 1, 0, QStatus.waiting, 0, none, none⟩], []⟩
          ⟨2, 20, 1, 8, "MED", 2, 0, QStatus.waiting, 0, none, none⟩ := by
  have h := getPeopleAhead_always_zero
    ⟨[], [⟨1, 10, 1, 7, "MED", 1, 0, QStatus.waiting, 0, none, none⟩], []⟩
    ⟨2, 20, 1, 8, "MED", 2, 0, QStatus.waiting, 0, none, none⟩
  exact ⟨h.1, h.2 (by decide)⟩

/-! ### C8: `markInRoom` changes only the status field of the targeted
queue entry. -/

/-- C8.  `markInRoom` maps the targeted entry to a copy whose every field
other than `status` (id, appointment, doctor, patient, spid, queue number,
priority, creation/call/done timestamps) is unchanged and whose status is
`in_room`; every other queue entry, every appointment and every
notification is left exactly as it was. -/
theorem markInRoom_frame (db : DB) (entry : QueueEntry) (now : Nat) :
    (markInRoom db entry now).queue_entries =
        db.queue_entries.map (fun e =>
          if e.id = entry.id then
            { id := e.id, appointment_id := e.appointment_id,
              doctor_id := e.doctor_id, patient_id := e.patient_id,
              spid := e.spid, queue_number := e.queue_number,
              priority := e.priority, status := QStatus.in_room,
              created_at := e.created_at, called_at := e.called_at,
              done_at := e.done_at }
          else e) ∧
      (markInRoom db entry now).appointments = db.appointments ∧
        (markInRoom db entry now).notifications = db.notifications := by
  refine ⟨?_, rfl, rfl⟩
  simp only [markInRoom, updateQueueStatus, applyQueuePayload]
  rfl

/-! ### C9: the wait-time predictor's positive floor at `patients_ahead = 0`. -/

/-- C9.  For `patients_ahead = 0` the predicted wait is at least the
(positive) in-progress consultation floor, hence nonzero; the predictor is
a function of its inputs only. -/
theorem predictWait_floor_at_zero (avgServiceMinutes floorMinutes : Nat)
    (h : 0 < floorMinutes) :
    floorMinutes ≤ predictWaitModel avgServiceMinutes 0 floorMinutes ∧
      predictWaitModel avgServiceMinutes 0 floorMinutes ≠ 0 := by
  simp only [predictWaitModel, Nat.zero_mul, Nat.zero_max]
  omega

/-- Witness for C9: clinic average 8 minutes, floor 4 minutes. -/
theorem predictWait_floor_at_zero_witness :
    4 ≤ predictWaitModel 8 0 4 ∧ predictWaitModel 8 0 4 ≠ 0 :=
  predictWait_floor_at_zero 8 4 (by decide)

/-! ### C1: queue-number assignment by `createAppointmentAndQueue`. -/

theorem mem_le_foldrMax {l : List Nat} {x : Nat} (hx : x ∈ l) :
    x ≤ l.foldr Nat.max 0 := by
  induction l with
  | nil => cases hx
  | cons a l ih =>
    rcases List.mem_cons.mp hx with h | h
    · subst h; exact Nat.le_max_left _ _
    · exact Nat.le_trans (ih h) (Nat.le_max_right _ _)

theorem foldrMax_append (l : List Nat) (a : Nat) :
    (l ++ [a]).foldr Nat.max 0 = Nat.max (l.foldr Nat.max 0) a := by
  induction l with
  | nil => simp [Nat.max_comm]
  | cons b l ih =>
    simp only [List.cons_append, List.foldr_cons, ih, Nat.max_assoc]

theorem sameDayDoctorEntries_append (db db' : DB) (e : QueueEntry)
    (doctorId startOfDay : Nat)
    (hqe : db'.queue_entries = db.queue_entries ++ [e]) :
    sameDayDoctorEntries db' doctorId startOfDay =
      sameDayDoctorEntries db doctorId startOfDay ++
        (if e.doctor_id = doctorId ∧ startOfDay ≤ e.created_at then [e] else []) := by
  simp only [sameDayDoctorEntries, hqe, List.filter_append]
  congr 1
  by_cases h1 : e.doctor_id = doctorId <;> by_cases h2 : startOfDay ≤ e.created_at <;>
    simp [h1, h2]

/-- C1.  The queue entry created by `createAppointmentAndQueue` carries
`queue_number = max existing queue number for that doctor today + 1`
(so `1` when no same-day entry exists), status `waiting` and priority `0`;
its number strictly exceeds every existing same-day number for the doctor
(uniqueness under sequential enqueues), it becomes the new same-day
maximum, and the next sequential enqueue for the same doctor receives
exactly the successor number (strictly increasing sequence from 1). -/
theorem enqueue_assigns_max_plus_one (db : DB) (payload : EnqueuePayload)
    (now startOfDay apptId entryId : Nat) :
    (createAppointmentAndQueue db payload now startOfDay apptId entryId).2.2.queue_number =
        maxQueueNumber db payload.doctor_id startOfDay + 1 ∧
      (createAppointmentAndQueue db payload now startOfDay apptId entryId).2.2.status =
        QStatus.waiting ∧
      (createAppointmentAndQueue db payload now startOfDay apptId entryId).2.2.priority = 0 ∧
      (sameDayDoctorEntries db payload.doctor_id startOfDay = [] →
        (createAppointmentAndQueue db payload now startOfDay apptId entryId).2.2.queue_number
          = 1) ∧
      (∀ e ∈ sameDayDoctorEntries db payload.doctor_id startOfDay,
        e.queue_number <
          (createAppointmentAndQueue db payload now startOfDay apptId entryId).2.2.queue_number) ∧
      (startOfDay ≤ now →
        maxQueueNumber
            (createAppointmentAndQueue db payload now startOfDay apptId entryId).1
            payload.doctor_id startOfDay =
          (createAppointmentAndQueue db payload now startOfDay apptId entryId).2.2.queue_number) ∧
      (startOfDay ≤ now →
        ∀ (payload' : EnqueuePayload) (now' apptId' entryId' : Nat),
          payload'.doctor_id = payload.doctor_id →
          (createAppointmentAndQueue
              (createAppointmentAndQueue db payload now startOfDay apptId entryId).1
              payload' now' startOfDay apptId' entryId').2.2.queue_number =
            (createAppointmentAndQueue db payload now startOfDay apptId entryId).2.2.queue_number
              + 1) := by
  have hmax : ∀ hnow : startOfDay ≤ now,
      maxQueueNumber
          (createAppointmentAndQueue db payload now startOfDay apptId entryId).1
          payload.doctor_id startOfDay =
        maxQueueNumber db payload.doctor_id startOfDay + 1 := by
    intro hnow
    unfold maxQueueNumber
    rw [sameDayDoctorEntries_append db
        (createAppointmentAndQueue db payload now startOfDay apptId entryId).1
        (createAppointmentAndQueue db payload now startOfDay apptId entryId).2.2
        payload.doctor_id startOfDay rfl]
    rw [if_pos ⟨rfl, hnow⟩]
    rw [List.map_append]
    simp only [List.map_cons, List.map_nil]
    rw [foldrMax_append]
    show Nat.max (maxQueueNumber db payload.doctor_id startOfDay)
        (maxQueueNumber db payload.doctor_id startOfDay + 1) =
      maxQueueNumber db payload.doctor_id startOfDay + 1
    exact Nat.max_eq_right (Nat.le_succ _)
  refine ⟨rfl, rfl, rfl, ?_, ?_, ?_, ?_⟩
  · intro hempty
    show maxQueueNumber db payload.doctor_id startOfDay + 1 = 1
    unfold maxQueueNumber
    rw [hempty]
    rfl
  · intro e he
    show e.queue_number < maxQueueNumber db payload.doctor_id startOfDay + 1
    have : e.queue_number ≤ maxQueueNumber db payload.doctor_id startOfDay :=
      mem_le_foldrMax (List.mem_map_of_mem _ he)
    omega
  · intro hnow
    exact hmax hnow
  · intro hnow payload' now' apptId' entryId' hdoc
    have h1 : (createAppointmentAndQueue
        (createAppointmentAndQueue db payload now startOfDay apptId entryId).1
        payload' now' startOfDay apptId' entryId').2.2.queue_number =
          maxQueueNumber
            (createAppointmentAndQueue db payload now startOfDay apptId entryId).1
            payload'.doctor_id startOfDay + 1 := rfl
    have h2 : (createAppointmentAndQueue db payload now startOfDay apptId
        entryId).2.2.queue_number =
          maxQueueNumber db payload.doctor_id startOfDay + 1 := rfl
    rw [h1, hdoc, hmax hnow, h2]

/-- Witness for C1: from the empty store, an enqueue for doctor 1 at time 5
(start of day 0) receives queue number 1 in status `waiting` with priority
0, and a second sequential enqueue for the same doctor receives number 2. -/
theorem enqueue_assigns_max_plus_one_witness :
    (createAppointmentAndQueue ⟨[], [], []⟩ ⟨7, 1, "MED", "visit", none⟩
        5 0 10 11).2.2.queue_number = 1 ∧
      (createAppointmentAndQueue ⟨[], [], []⟩ ⟨7, 1, "MED", "visit", none⟩
          5 0 10 11).2.2.status = QStatus.waiting ∧
      (createAppointmentAndQueue ⟨[], [], []⟩ ⟨7, 1, "MED", "visit", none⟩
          5 0 10 11).2.2.priority = 0 ∧
      (createAppointmentAndQueue
          (createAppointmentAndQueue ⟨[], [], []⟩ ⟨7, 1, "MED", "visit", none⟩
            5 0 10 11).1
          ⟨8, 1, "ENT", "visit", none⟩ 6 0 12 13).2.2.queue_number =
        (createAppointmentAndQueue ⟨[], [], []⟩ ⟨7, 1, "MED", "visit", none⟩
            5 0 10 11).2.2.queue_number + 1 := by
  have h := enqueue_assigns_max_plus_one ⟨[], [], []⟩ ⟨7, 1, "MED", "visit", none⟩ 5 0 10 11
  exact ⟨h.2.2.2.1 (by decide), h.2.1, h.2.2.1,
    h.2.2.2.2.2.2 (by decide) ⟨8, 1, "ENT", "visit", none⟩ 6 12 13 (by decide)⟩

/-! ### C4: selection of the next entry to call by `nextWaiting`. -/

theorem find?_sorted_min {l : List QueueEntry}
    (hs : List.Sorted byQueueNumber l) {p : QueueEntry → Bool} {a : QueueEntry}
    (h : l.find? p = some a) :
    ∀ b ∈ l, p b = true → a.queue_number ≤ b.queue_number := by
  induction l with
  | nil => cases h
  | cons x xs ih =>
    rcases List.sorted_cons.mp hs with ⟨hx, hxs⟩
    by_cases hpx : p x = true
    · rw [List.find?_cons_of_pos _ hpx] at h
      cases h
      intro b hb _
      rcases List.mem_cons.mp hb with hb | hb
      · subst hb; exact Nat.le_refl _
      · exact hx b hb
    · rw [List.find?_cons_of_neg _ hpx] at h
      intro b hb hpb
      rcases List.mem_cons.mp hb with hb | hb
      · subst hb; exact absurd hpb hpx
      · exact ih hxs h b hb hpb

theorem mem_getDoctorQueue {db : DB} {doctorId : Nat} {e : QueueEntry} :
    e ∈ getDoctorQueue db doctorId ↔
      e ∈ db.queue_entries ∧ e.doctor_id = doctorId ∧ activeStatus e.status = true := by
  simp [getDoctorQueue, List.mem_filter, and_assoc]

/-- C4, amended.  `nextWaiting` returns none exactly when the doctor has no
entry in status `waiting`; when it returns an entry, that entry is a
`waiting` entry of the doctor whose `queue_number` is minimal among the
doctor's `waiting` entries — the selection ignores `priority` entirely. -/
theorem nextWaiting_min_queue_number (db : DB) (doctorId : Nat) :
    (nextWaiting db doctorId = none ↔
        ∀ e ∈ db.queue_entries, e.doctor_id = doctorId →
          e.status ≠ QStatus.waiting) ∧
      ∀ e, nextWaiting db doctorId = some e →
        e ∈ db.queue_entries ∧ e.doctor_id = doctorId ∧
          e.status = QStatus.waiting ∧
          ∀ e' ∈ db.queue_entries, e'.doctor_id = doctorId →
            e'.status = QStatus.waiting → e.queue_number ≤ e'.queue_number := by
  constructor
  · rw [nextWaiting, List.find?_eq_none]
    constructor
    · intro hnone e he hdoc hw
      exact hnone e (mem_getDoctorQueue.mpr ⟨he, hdoc, by rw [hw]; rfl⟩)
        (by simp [hw])
    · intro hnw e hmem
      rcases mem_getDoctorQueue.mp hmem with ⟨he, hdoc, _⟩
      simpa using hnw e he hdoc
  · intro e hfind
    rw [nextWaiting] at hfind
    have hp := List.find?_some hfind
    have hw : e.status = QStatus.waiting := by simpa using hp
    have hmem : e ∈ getDoctorQueue db doctorId := List.mem_of_find?_eq_some hfind
    rcases mem_getDoctorQueue.mp hmem with ⟨he, hdoc, _⟩
    refine ⟨he, hdoc, hw, fun e' he' hdoc' hw' => ?_⟩
    have hsorted : List.Sorted byQueueNumber (getDoctorQueue db doctorId) :=
      List.sorted_insertionSort byQueueNumber _
    exact find?_sorted_min hsorted hfind e'
      (mem_getDoctorQueue.mpr ⟨he', hdoc', by rw [hw']; rfl⟩) (by simp [hw'])

/-- Witness for C4's amended theorem at a concrete state: with waiting
entries numbered 2 and 5 and a called entry numbered 1 for doctor 1,
`nextWaiting` returns the waiting entry numbered 2, and its number is
minimal among the waiting entries. -/
theorem nextWaiting_min_queue_number_witness :
    nextWaiting
        ⟨[], [⟨1, 10, 1, 7, "MED", 1, 0, QStatus.called, 0, some 3, none⟩,
              ⟨2, 20, 1, 8, "MED", 5, 0, QStatus.waiting, 1, none, none⟩,
              ⟨3, 30, 1, 9, "MED", 2, 0, QStatus.waiting, 2, none, none⟩], []⟩ 1 =
      some ⟨3, 30, 1, 9, "MED", 2, 0, QStatus.waiting, 2, none, none⟩ ∧
    (⟨3, 30, 1, 9, "MED", 2, 0, QStatus.waiting, 2, none, none⟩ : QueueEntry).queue_number ≤
      (⟨2, 20, 1, 8, "MED", 5, 0, QStatus.waiting, 1, none, none⟩ : QueueEntry).queue_number := by
  have hfind : nextWaiting
      ⟨[], [⟨1, 10, 1, 7, "MED", 1, 0, QStatus.called, 0, some 3, none⟩,
            ⟨2, 20, 1, 8, "MED", 5, 0, QStatus.waiting, 1, none, none⟩,
            ⟨3, 30, 1, 9, "MED", 2, 0, QStatus.waiting, 2, none, none⟩], []⟩ 1 =
      some ⟨3, 30, 1, 9, "MED", 2, 0, QStatus.waiting, 2, none, none⟩ := by decide
  have h := (nextWaiting_min_queue_number
      ⟨[], [⟨1, 10, 1, 7, "MED", 1, 0, QStatus.called, 0, some 3, none⟩,
            ⟨2, 20, 1, 8, "MED", 5, 0, QStatus.waiting, 1, none, none⟩,
            ⟨3, 30, 1, 9, "MED", 2, 0, QStatus.waiting, 2, none, none⟩], []⟩ 1).2
    ⟨3, 30, 1, 9, "MED", 2, 0, QStatus.waiting, 2, none, none⟩ hfind
  exact ⟨hfind, h.2.2.2 ⟨2, 20, 1, 8, "MED", 5, 0, QStatus.waiting, 1, none, none⟩
    (by decide) (by decide) (by decide)⟩

/-- Counterexample to C4 as stated: for doctor 1, a waiting entry with
priority 1 and queue number 2 coexists with a waiting priority-0 entry
with queue number 1; `nextWaiting` selects the priority-0 entry with the
smaller queue number, not the higher-priority one. -/
theorem nextWaiting_ignores_priority_cex :
    nextWaiting
        ⟨[], [⟨1, 10, 1, 7, "MED", 1, 0, QStatus.waiting, 0, none, none⟩,
              ⟨2, 20, 1, 8, "MED", 2, 1, QStatus.waiting, 1, none, none⟩], []⟩ 1 =
      some ⟨1, 10, 1, 7, "MED", 1, 0, QStatus.waiting, 0, none, none⟩ ∧
    (⟨2, 20, 1, 8, "MED", 2, 1, QStatus.waiting, 1, none, none⟩ : QueueEntry) ∈
      (⟨[], [⟨1, 10, 1, 7, "MED", 1, 0, QStatus.waiting, 0, none, none⟩,
             ⟨2, 20, 1, 8, "MED", 2, 1, QStatus.waiting, 1, none, none⟩], []⟩ : DB).queue_entries ∧
    (⟨2, 20, 1, 8, "MED", 2, 1, QStatus.waiting, 1, none, none⟩ : QueueEntry).status =
      QStatus.waiting ∧
    (⟨1, 10, 1, 7, "MED", 1, 0, QStatus.waiting, 0, none, none⟩ : QueueEntry).priority <
      (⟨2, 20, 1, 8, "MED", 2, 1, QStatus.waiting, 1, none, none⟩ : QueueEntry).priority ∧
    nextWaiting
        ⟨[], [⟨1, 10, 1, 7, "MED", 1, 0, QStatus.waiting, 0, none, none⟩,
              ⟨2, 20, 1, 8, "MED", 2, 1, QStatus.waiting, 1, none, none⟩], []⟩ 1 ≠
      some ⟨2, 20, 1, 8, "MED", 2, 1, QStatus.waiting, 1, none, none⟩ := by
  refine ⟨by decide, by decide, by decide, by decide, by decide⟩

/-! ### C2: the waiting → called transition is not a conditional update. -/

/-- C2.  `updateQueueStatus` filters only on the row id: when two call-next
invocations race on the same waiting entry (id 1), the first update sets
the entry to `called` at time 10, and the second — issued against a row
that is no longer `waiting` — is applied all the same, overwriting
`called_at` with time 20.  No conflict is signalled: the function has no
status condition and no error outcome. -/
theorem updateQueueStatus_unconditional :
    (updateQueueStatus
        ⟨[], [⟨1, 10, 1, 7, "MED", 1, 0, QStatus.waiting, 0, none, none⟩], []⟩
        1 QStatus.called 10).queue_entries.map (fun e => (e.status, e.called_at)) =
      [(QStatus.called, some 10)] ∧
    (updateQueueStatus
        (updateQueueStatus
          ⟨[], [⟨1, 10, 1, 7, "MED", 1, 0, QStatus.waiting, 0, none, none⟩], []⟩
          1 QStatus.called 10)
        1 QStatus.called 20).queue_entries.map (fun e => (e.status, e.called_at)) =
      [(QStatus.called, some 20)] := by
  exact ⟨by decide, by decide⟩

/-! ### C3: no transition validation at all. -/

/-- C3.  The status update performs no lifecycle check: applying
`markInRoom` to an entry already in status `done` succeeds and sets the
entry back to `in_room` — the `done → in_room` transition is carried out
instead of being rejected with `InvalidTransitionError`, and the entry's
status regresses out of the terminal state. -/
theorem markInRoom_accepts_done_entry :
    (⟨1, 10, 1, 7, "MED", 1, 0, QStatus.done, 0, some 3, some 4⟩ : QueueEntry).status =
      QStatus.done ∧
    (markInRoom
        ⟨[⟨10, 7, 1, "MED", "visit", none, AStatus.done, 0⟩],
         [⟨1, 10, 1, 7, "MED", 1, 0, QStatus.done, 0, some 3, some 4⟩], []⟩
        ⟨1, 10, 1, 7, "MED", 1, 0, QStatus.done, 0, some 3, some 4⟩
        50).queue_entries.map (·.status) = [QStatus.in_room] := by
  exact ⟨rfl, by decide⟩

/-! ### C6: near-turn notifications are not deduplicated. -/

/-- Undelivered `near_turn` notifications recorded for one queue entry. -/
def undeliveredNearTurnCount (db : DB) (queueEntryId : Nat) : Nat :=
  (db.notifications.filter fun n =>
      decide (n.queue_entry_id = queueEntryId) &&
        decide (n.type = NotifType.near_turn) && decide (n.delivered = false)).length

/-- C6.  The dispatch in `fetchActiveQueue` creates a `near_turn`
notification whenever `ahead <= 3 || predicted <= 10` holds, with no check
for an existing one: for patient 7, whose single waiting entry (id 3) has
nobody ahead, the first evaluation records one undelivered `near_turn`
notification, and a second evaluation of the unchanged threshold records a
duplicate — two undelivered `near_turn` notifications for the same
entry. -/
theorem dispatchNearTurn_duplicates :
    undeliveredNearTurnCount
        (dispatchNearTurn
          ⟨[], [⟨3, 10, 1, 7, "MED", 1, 0, QStatus.waiting, 0, none, none⟩], []⟩
          7 15 100 40) 3 = 1 ∧
    undeliveredNearTurnCount
        (dispatchNearTurn
          (dispatchNearTurn
            ⟨[], [⟨3, 10, 1, 7, "MED", 1, 0, QStatus.waiting, 0, none, none⟩], []⟩
            7 15 100 40)
          7 15 101 41) 3 = 2 := by
  exact ⟨by decide, by decide⟩

/-! ### C7: the `delivered` flag is one-way and nothing else is mutated.

The mutating operations the system offers on the modelled tables, i.e. the
exported mutators of `supabase.ts` together with the page-level actions
composed from them. -/

inductive Op where
  | enqueueOp (payload : EnqueuePayload) (now startOfDay apptId entryId : Nat)
  | callNextOp (doctorId now notifId : Nat)
  | markInRoomOp (entry : QueueEntry) (now : Nat)
  | markDoneOp (entry : QueueEntry) (now : Nat)
  | updateQueueStatusOp (queueId : Nat) (status : QStatus) (now : Nat)
  | updateAppointmentStatusOp (appointmentId : Nat) (status : AStatus)
  | nearTurnOp (patientId predictedMinutes notifId now : Nat)
  | createNotificationOp (payload : NotifPayload) (notifId now : Nat)
  | markDeliveredOp (notifId : Nat)

/-- Dispatch of one operation to the function modelling it. -/
def applyOp (db : DB) : Op → DB
  | .enqueueOp payload now startOfDay apptId entryId =>
      (createAppointmentAndQueue db payload now startOfDay apptId entryId).1
  | .callNextOp doctorId now notifId => callNext db doctorId now notifId
  | .markInRoomOp entry now => markInRoom db entry now
  | .markDoneOp entry now => markDone db entry now
  | .updateQueueStatusOp queueId status now => updateQueueStatus db queueId status now
  | .updateAppointmentStatusOp appointmentId status =>
      updateAppointmentStatus db appointmentId status
  | .nearTurnOp patientId predictedMinutes notifId now =>
      dispatchNearTurn db patientId predictedMinutes notifId now
  | .createNotificationOp payload notifId now => createNotification db payload notifId now
  | .markDeliveredOp notifId => markNotificationDelivered db notifId

/-- A sequence of operations, applied in order. -/
def applyOps (db : DB) (ops : List Op) : DB := ops.foldl applyOp db

/-- Lookup of a notification row by id. -/
def findNotif (db : DB) (notifId : Nat) : Option NotificationItem :=
  db.notifications.find? fun n => decide (n.id = notifId)

/-- All fields other than `delivered` agree. -/
def eqExceptDelivered (n n' : NotificationItem) : Prop :=
  n'.id = n.id ∧ n'.patient_id = n.patient_id ∧ n'.queue_entry_id = n.queue_entry_id ∧
    n'.type = n.type ∧ n'.message = n.message ∧ n'.created_at = n.created_at

theorem eqExceptDelivered_refl (n : NotificationItem) : eqExceptDelivered n n :=
  ⟨rfl, rfl, rfl, rfl, rfl, rfl⟩

theorem eqExceptDelivered_trans {a b c : NotificationItem}
    (h1 : eqExceptDelivered a b) (h2 : eqExceptDelivered b c) :
    eqExceptDelivered a c := by
  obtain ⟨x1, x2, x3, x4, x5, x6⟩ := h1
  obtain ⟨y1, y2, y3, y4, y5, y6⟩ := h2
  exact ⟨y1.trans x1, y2.trans x2, y3.trans x3, y4.trans x4, y5.trans x5, y6.trans x6⟩

theorem find?_append_of_some {α : Type} {p : α → Bool} {l l' : List α} {a : α}
    (h : l.find? p = some a) : (l ++ l').find? p = some a := by
  induction l with
  | nil => cases h
  | cons x xs ih =>
    by_cases hpx : p x = true
    · rw [List.find?_cons_of_pos _ hpx] at h
      rw [List.cons_append, List.find?_cons_of_pos _ hpx]
      exact h
    · rw [List.find?_cons_of_neg _ hpx] at h
      rw [List.cons_append, List.find?_cons_of_neg _ hpx]
      exact ih h

theorem find?_map_of_invariant {α : Type} {p : α → Bool} {g : α → α}
    (hg : ∀ a, p (g a) = p a) (l : List α) :
    (l.map g).find? p = (l.find? p).map g := by
  induction l with
  | nil => rfl
  | cons x xs ih =>
    by_cases hpx : p x = true
    · rw [List.map_cons, List.find?_cons_of_pos _ ((hg x).trans hpx),
        List.find?_cons_of_pos _ hpx]
      rfl
    · rw [List.map_cons, List.find?_cons_of_neg _ (by rw [hg x]; exact hpx),
        List.find?_cons_of_neg _ hpx]
      exact ih

theorem findNotif_of_notifs_eq {db db' : DB}
    (h : db'.notifications = db.notifications) (i : Nat) :
    findNotif db' i = findNotif db i := by
  simp [findNotif, h]

theorem findNotif_of_notifs_append {db db' : DB} {x : NotificationItem}
    (h : db'.notifications = db.notifications ++ [x]) {i : Nat}
    {n : NotificationItem} (hf : findNotif db i = some n) :
    findNotif db' i = some n := by
  rw [findNotif, h]
  exact find?_append_of_some hf

/-- One step: every system operation either leaves a notification row
untouched, or (only `markNotificationDelivered`) sets its `delivered` flag
to `true`, keeping every other field; a `true` flag never reverts. -/
theorem findNotif_applyOp (db : DB) (op : Op) (i : Nat) (n : NotificationItem)
    (h : findNotif db i = some n) :
    ∃ n', findNotif (applyOp db op) i = some n' ∧ eqExceptDelivered n n' ∧
      (n.delivered = true → n'.delivered = true) := by
  cases op with
  | enqueueOp payload now startOfDay apptId entryId =>
    exact ⟨n, by rw [findNotif_of_notifs_eq rfl]; exact h, eqExceptDelivered_refl n,
      fun hd => hd⟩
  | callNextOp doctorId now notifId =>
    refine ⟨n, ?_, eqExceptDelivered_refl n, fun hd => hd⟩
    show findNotif (callNext db doctorId now notifId) i = some n
    rw [callNext]
    cases hnw : nextWaiting db doctorId with
    | none => exact h
    | some q => exact findNotif_of_notifs_append rfl h
  | markInRoomOp entry now =>
    exact ⟨n, by rw [findNotif_of_notifs_eq rfl]; exact h, eqExceptDelivered_refl n,
      fun hd => hd⟩
  | markDoneOp entry now =>
    exact ⟨n, by rw [findNotif_of_notifs_eq rfl]; exact h, eqExceptDelivered_refl n,
      fun hd => hd⟩
  | updateQueueStatusOp queueId status now =>
    exact ⟨n, by rw [findNotif_of_notifs_eq rfl]; exact h, eqExceptDelivered_refl n,
      fun hd => hd⟩
  | updateAppointmentStatusOp appointmentId status =>
    exact ⟨n, by rw [findNotif_of_notifs_eq rfl]; exact h, eqExceptDelivered_refl n,
      fun hd => hd⟩
  | nearTurnOp patientId predictedMinutes notifId now =>
    refine ⟨n, ?_, eqExceptDelivered_refl n, fun hd => hd⟩
    show findNotif (dispatchNearTurn db patientId predictedMinutes notifId now) i = some n
    rw [dispatchNearTurn]
    cases hq : getPatientActiveQueue db patientId with
    | none => exact h
    | some q =>
      show findNotif
          (if countPeopleAhead db q ≤ 3 ∨ predictedMinutes ≤ 10 then
            createNotification db
              { patient_id := patientId, queue_entry_id := q.id,
                type := NotifType.near_turn,
                message := "You are near your turn at " ++ q.spid ++
                  ". Please stay ready." }
              notifId now
          else db) i = some n
      by_cases hcond : countPeopleAhead db q ≤ 3 ∨ predictedMinutes ≤ 10
      · rw [if_pos hcond]
        exact findNotif_of_notifs_append rfl h
      · rw [if_neg hcond]
        exact h
  | createNotificationOp payload notifId now =>
    exact ⟨n, findNotif_of_notifs_append rfl h, eqExceptDelivered_refl n, fun hd => hd⟩
  | markDeliveredOp notifId =>
    have hg : ∀ m : NotificationItem,
        (decide ((if m.id = notifId then { m with delivered := true } else m).id = i) :
            Bool) = decide (m.id = i) := by
      intro m
      by_cases hm : m.id = notifId <;> simp [hm]
    refine ⟨if n.id = notifId then { n with delivered := true } else n, ?_, ?_, ?_⟩
    · show (db.notifications.map fun m =>
          if m.id = notifId then { m with delivered := true } else m).find?
            (fun m => decide (m.id = i)) = _
      rw [find?_map_of_invariant hg, show db.notifications.find?
          (fun m => decide (m.id = i)) = some n from h]
      rfl
    · by_cases hn : n.id = notifId <;> simp [hn, eqExceptDelivered]
    · intro hd
      by_cases hn : n.id = notifId <;> simp [hn, hd]

/-- C7.  Every notification is created with `delivered = false`
(`createNotification` appends exactly the payload plus `delivered: false`),
and along any sequence of system operations a notification row keeps every
field except `delivered` unchanged while `delivered` never goes back from
`true` — so the flag starts `false` and flips to `true` at most once, via
`markNotificationDelivered`, and never reverts. -/
theorem notification_delivered_one_way :
    (∀ (db : DB) (payload : NotifPayload) (notifId now : Nat),
        (createNotification db payload notifId now).notifications =
          db.notifications ++
            [{ id := notifId, patient_id := payload.patient_id,
               queue_entry_id := payload.queue_entry_id, type := payload.type,
               message := payload.message, delivered := false, created_at := now }]) ∧
      ∀ (db : DB) (ops : List Op) (i : Nat) (n n' : NotificationItem),
        findNotif db i = some n → findNotif (applyOps db ops) i = some n' →
        eqExceptDelivered n n' ∧ (n.delivered = true → n'.delivered = true) := by
  refine ⟨fun db payload notifId now => rfl, fun db ops => ?_⟩
  induction ops generalizing db with
  | nil =>
    intro i n n' h h'
    rw [show applyOps db [] = db from rfl, h] at h'
    cases h'
    exact ⟨eqExceptDelivered_refl n, fun hd => hd⟩
  | cons op ops ih =>
    intro i n n' h h'
    rw [show applyOps db (op :: ops) = applyOps (applyOp db op) ops from rfl] at h'
    obtain ⟨n₁, h₁, he₁, hm₁⟩ := findNotif_applyOp db op i n h
    obtain ⟨he₂, hm₂⟩ := ih (applyOp db op) i n₁ n' h₁ h'
    exact ⟨eqExceptDelivered_trans he₁ he₂, fun hd => hm₂ (hm₁ hd)⟩

/-- Witness for C7 at a concrete run: a delivered notification (id 1) put
through `markNotificationDelivered` keeps all fields and stays
delivered. -/
theorem notification_delivered_one_way_witness :
    eqExceptDelivered ⟨1, 7, 3, NotifType.info, "hello", true, 5⟩
        ⟨1, 7, 3, NotifType.info, "hello", true, 5⟩ ∧
      ((⟨1, 7, 3, NotifType.info, "hello", true, 5⟩ : NotificationItem).delivered = true →
        (⟨1, 7, 3, NotifType.info, "hello", true, 5⟩ : NotificationItem).delivered = true) :=
  notification_delivered_one_way.2
    ⟨[], [], [⟨1, 7, 3, NotifType.info, "hello", true, 5⟩]⟩
    [Op.markDeliveredOp 1] 1
    ⟨1, 7, 3, NotifType.info, "hello", true, 5⟩
    ⟨1, 7, 3, NotifType.info, "hello", true, 5⟩
    (by decide) (by decide)

end MediHack
